import Mathlib

/-!
Shallow embedding of the command-execution subsystem of
`src/src/utilities/python/utilities.py` (BASIS Python utilities):
argument normalization and quoting (`to_quoted_string`,
`split_quoted_string`, `to_array_of_strings`) and the process executor
(`execute_process`), together with theorems settling the specification's
claims about them.
-/

namespace Basis

/-- Python exception kinds raised by the modelled code.  `nameError` models
Python's `NameError` (an undefined global name was referenced), carrying the
offending name; `subprocessError` is the module's own `SubprocessError`
class (utilities.py lines 160-169) with its message; `indexError` models
`IndexError` from an out-of-range subscript; `valueError` models the
`ValueError` that `shlex.split` raises on malformed input; `exception` is a
bare `Exception(msg)` as raised by `to_array_of_strings`. -/
inductive PyError where
  | nameError (n : String)
  | subprocessError (msg : String)
  | indexError
  | valueError (msg : String)
  | exception (msg : String)
deriving DecidableEq, Repr

instance exceptDecEq {ε α : Type} [DecidableEq ε] [DecidableEq α] :
    DecidableEq (Except ε α) := fun x y =>
  match x, y with
  | Except.error a, Except.error b => decidable_of_iff (a = b) (by simp)
  | Except.error _, Except.ok _ => Decidable.isFalse (by simp)
  | Except.ok _, Except.error _ => Decidable.isFalse (by simp)
  | Except.ok a, Except.ok b => decidable_of_iff (a = b) (by simp)

/-- The single-quote character. -/
def squote : Char := Char.ofNat 39

/-- The double-quote character. -/
def dquote : Char := Char.ofNat 34

/-- The backslash character. -/
def bslash : Char := Char.ofNat 92

/-- The characters matched by Python's regex class `\s` (and stripped by
`str.rstrip()`) for ASCII text: space, tab, linefeed, carriage return,
vertical tab, form feed. -/
def isPyRegexSpace (c : Char) : Bool :=
  c == ' ' || c == '\t' || c == '\n' || c == '\r' ||
  c == Char.ofNat 11 || c == Char.ofNat 12

/-- Line 186 of `to_quoted_string`: `arg.replace('"', '\\"')`, escaping each
double quote with a backslash, character by character. -/
def escapeDQ : List Char → List Char
  | [] => []
  | c :: cs =>
      if c == dquote then bslash :: dquote :: escapeDQ cs
      else c :: escapeDQ cs

/-- Line 183/188 of `to_quoted_string`: `re.compile(r"'|\s").search(arg)`
viewed as a predicate, true when the string holds a single quote or a
whitespace character. -/
def re_quote_or_not (s : List Char) : Bool :=
  s.any (fun c => c == squote || isPyRegexSpace c)

/-- The loop body of `to_quoted_string` (lines 184-189) applied to one
element: escape double quotes, then surround by double quotes when the
regex `'|\s` matches. -/
def quoteArg (arg : List Char) : List Char :=
  let a := escapeDQ arg
  if re_quote_or_not a then dquote :: (a ++ [dquote]) else a

/-- `' '.join(qargs)` (line 190). -/
def joinSpace : List (List Char) → List Char
  | [] => []
  | [a] => a
  | a :: b :: rest => a ++ ' ' :: joinSpace (b :: rest)

/-- What the body of `to_quoted_string` (utilities.py lines 182-190)
computes once `re.compile` is available: each element escaped and quoted as
needed, the results joined by single spaces. -/
def to_quoted_string_body (args : List String) : String :=
  String.mk (joinSpace (args.map (fun a => quoteArg a.data)))

/-- The global names bound at the top of utilities.py (lines 42-46):
`import sys`, `import os.path`, `import subprocess`, and
`from .config import COPYRIGHT, LICENSE, CONTACT`.  The `re` module is not
imported anywhere in the module. -/
def module_imports : List String :=
  ["sys", "os.path", "subprocess", "COPYRIGHT", "LICENSE", "CONTACT"]

/-- `to_quoted_string` (utilities.py lines 172-190) as it actually executes:
its first real statement evaluates `re.compile(r"'|\s")`, and looking up the
global name `re` raises `NameError` unless the module imported it.  Since
`module_imports` holds no `re`, every call raises `NameError` before any
element is processed. -/
def to_quoted_string (args : List String) : Except PyError String :=
  if module_imports.contains "re" then
    Except.ok (to_quoted_string_body args)
  else
    Except.error (PyError.nameError "re")

/-- The token-separating whitespace of Python's `shlex` lexer
(`shlex.whitespace`): space, tab, carriage return, linefeed. -/
def isShWs (c : Char) : Bool :=
  c == ' ' || c == '\t' || c == '\r' || c == '\n'

/-- State of the `shlex` POSIX lexer: between tokens, inside an unquoted
token, inside single quotes, inside double quotes, after a backslash outside
quotes, after a backslash inside double quotes. -/
inductive ShState where
  | ws
  | word
  | single
  | double
  | esc
  | descQ
deriving DecidableEq, Repr

/-- Python's `shlex.split` in POSIX mode (the Python standard library lexer
that `split_quoted_string`, utilities.py lines 193-196, delegates to),
modelled as a state machine over the characters: whitespace separates
tokens; a single-quoted span is literal up to the closing quote; inside a
double-quoted span a backslash escapes only `"` and `\`; outside quotes a
backslash escapes the next character; a quoted span produces a token even
when empty; an unclosed quote or a trailing backslash raises `ValueError`.
`cur` is the current token's characters in reverse, `acc` the finished
tokens in reverse. -/
def shlexRun : List Char → ShState → List Char → List (List Char) →
    Except PyError (List String)
  | [], ShState.ws, _, acc => Except.ok (acc.reverse.map String.mk)
  | [], ShState.word, cur, acc =>
      Except.ok ((cur.reverse :: acc).reverse.map String.mk)
  | [], ShState.esc, _, _ => Except.error (PyError.valueError "No escaped character")
  | [], _, _, _ => Except.error (PyError.valueError "No closing quotation")
  | c :: cs, ShState.ws, _, acc =>
      if isShWs c then shlexRun cs ShState.ws [] acc
      else if c == squote then shlexRun cs ShState.single [] acc
      else if c == dquote then shlexRun cs ShState.double [] acc
      else if c == bslash then shlexRun cs ShState.esc [] acc
      else shlexRun cs ShState.word [c] acc
  | c :: cs, ShState.word, cur, acc =>
      if isShWs c then shlexRun cs ShState.ws [] (cur.reverse :: acc)
      else if c == squote then shlexRun cs ShState.single cur acc
      else if c == dquote then shlexRun cs ShState.double cur acc
      else if c == bslash then shlexRun cs ShState.esc cur acc
      else shlexRun cs ShState.word (c :: cur) acc
  | c :: cs, ShState.single, cur, acc =>
      if c == squote then shlexRun cs ShState.word cur acc
      else shlexRun cs ShState.single (c :: cur) acc
  | c :: cs, ShState.double, cur, acc =>
      if c == dquote then shlexRun cs ShState.word cur acc
      else if c == bslash then shlexRun cs ShState.descQ cur acc
      else shlexRun cs ShState.double (c :: cur) acc
  | c :: cs, ShState.esc, cur, acc => shlexRun cs ShState.word (c :: cur) acc
  | c :: cs, ShState.descQ, cur, acc =>
      if c == dquote || c == bslash then shlexRun cs ShState.double (c :: cur) acc
      else shlexRun cs ShState.double (c :: bslash :: cur) acc

/-- `split_quoted_string` (utilities.py lines 193-196): `shlex.split(args)`. -/
def split_quoted_string (s : String) : Except PyError (List String) :=
  shlexRun s.data ShState.ws [] []

/-- A token-like Python value that can stand as an element of the argument
list handed to `to_array_of_strings`: a string, an integer, or `None`
(utilities.py permits any value convertible by `str()`; these are the forms
the executor is exercised with). -/
inductive PyAtom where
  | str (s : String)
  | int (n : Int)
  | none
deriving DecidableEq, Repr

/-- Python's built-in `str()` on a `PyAtom`: a string is itself, an integer
prints in decimal, `None` prints as `"None"`. -/
def pyStrAtom : PyAtom → String
  | PyAtom.str s => s
  | PyAtom.int n => toString n
  | PyAtom.none => "None"

/-- A Python value passed as the `args` parameter of `to_array_of_strings`
and `execute_process`: a list of token-like values, a single string, or
something of another type (modelled by an integer or `None`). -/
inductive PyValue where
  | list (elems : List PyAtom)
  | str (s : String)
  | int (n : Int)
  | none
deriving DecidableEq, Repr

/-- `to_array_of_strings` (utilities.py lines 199-209): a list is mapped
through `str()`, a string is split by `split_quoted_string`, any other type
raises `Exception("Argument must be either list or string")`. -/
def to_array_of_strings (args : PyValue) : Except PyError (List String) :=
  match args with
  | PyValue.list xs => Except.ok (xs.map pyStrAtom)
  | PyValue.str s => split_quoted_string s
  | _ => Except.error (PyError.exception "Argument must be either list or string")

/-- What the spawned child process does, as observed through the pipes:
`osError` models `subprocess.Popen` raising `OSError` at creation time;
`exc` models any other `Exception` out of the `try` block; `ran` is a child
that runs to completion, emitting the given newline-terminated stdout lines
(stored without their trailing newline), the given stderr text, and the
given exit code. -/
inductive SpawnResult where
  | osError (msg : String)
  | exc (msg : String)
  | ran (lines : List String) (errout : String) (exitcode : Int)
deriving DecidableEq, Repr

/-- Modelled from the spec: the two collaborators `execute_process` works
against, whose own code is outside this module.  `resolve` is the
PathResolver (`get_executable_path` delegating to the sibling `which`
module): it maps an executable name to its absolute path on the search
path, or `none` when the lookup fails.  `spawn` is the process boundary:
what the OS-level child invoked with the given argument vector does. -/
structure Env where
  resolve : String → Option String
  spawn : List String → SpawnResult

/-- `get_executable_path(name)` (utilities.py lines 99-125) for a named
command: `which(name)` on the search path, `None` when not found.  (The
`name=None` branch, which returns the running script's own path, is not
reached from `execute_process`.) -/
def get_executable_path (env : Env) (name : String) : Option String :=
  env.resolve name

/-- The observable effects of one `execute_process` call on the parent's
streams: what was written to the parent's stdout, what was written to the
parent's stderr, and whether `subprocess.Popen` was invoked at all. -/
structure Effects where
  out : String
  err : String
  spawned : Bool
deriving DecidableEq, Repr

/-- The value `execute_process` returns (utilities.py lines 286-288): the
`(status, output)` pair when both `stdout` and `allow_fail` are set, the
output alone when only `stdout` is set, the exit status alone otherwise. -/
inductive RetVal where
  | both (status : Int) (output : String)
  | outputOnly (output : String)
  | statusOnly (status : Int)
deriving DecidableEq, Repr

/-- Python's `str.rstrip()`: drop trailing whitespace characters. -/
def pyRstrip (s : String) : String :=
  String.mk ((s.data.reverse.dropWhile (fun c => isPyRegexSpace c)).reverse)

/-- Concatenation of a list of strings (used to state what the stdout drain
loop accumulates). -/
def joinLines : List String → String
  | [] => ""
  | l :: rest => l ++ joinLines rest

/-- The stdout drain loop of `execute_process` (utilities.py lines 262-268),
`for line in process.stdout`, over the child's newline-terminated lines
(each given without its newline).  First component: the `output`
accumulator, to which each line is appended with its newline when `stdout`
is set.  Second component: what is echoed to the parent's stdout, namely
`print line.rstrip()` (the rstripped line plus a newline) for each line
unless `quiet` is set. -/
def drain (stdout quiet : Bool) : List String → String × String
  | [] => ("", "")
  | l :: ls =>
      let r := drain stdout quiet ls
      ((if stdout then l ++ "\n" ++ r.1 else r.1),
       (if quiet then r.2 else pyRstrip l ++ "\n" ++ r.2))

/-- Lines 282-288 of `execute_process`: when the exit status is non-zero and
`allow_fail` is not set, raise `SubprocessError("** Failed: " +
to_quoted_string(args))` (whose message construction itself can raise);
otherwise return the option-selected shape. -/
def run_result (eff : Effects) (args1 : List String) (status : Int)
    (output : String) (stdout allow_fail : Bool) :
    Effects × Except PyError RetVal :=
  if status != 0 && !allow_fail then
    match to_quoted_string args1 with
    | Except.error e => (eff, Except.error e)
    | Except.ok q =>
        (eff, Except.error (PyError.subprocessError ("** Failed: " ++ q)))
  else
    (eff, Except.ok (
      if stdout && allow_fail then RetVal.both status output
      else if stdout then RetVal.outputOnly output
      else RetVal.statusOnly status))

/-- Lines 255-288 of `execute_process`, after path resolution and the
verbose echo: `status = 0; output = ''`; when not simulating, open the
subprocess (`osError` is re-raised as `SubprocessError(args[0] + ': ' +
str(e))`; any other exception is handled by building a message that itself
calls `to_quoted_string(args[1:])`), drain stdout line by line, forward the
child's stderr to the parent's stderr, take the exit code; then apply the
failure check and return shape of `run_result`.  `out0` is what the verbose
echo already wrote to the parent's stdout. -/
def run_phase (env : Env) (args1 : List String) (out0 : String)
    (quiet stdout allow_fail simulate : Bool) :
    Effects × Except PyError RetVal :=
  if simulate then
    run_result (Effects.mk out0 "" false) args1 0 "" stdout allow_fail
  else
    match env.spawn args1 with
    | SpawnResult.osError emsg =>
        (Effects.mk out0 "" true,
         Except.error (PyError.subprocessError (args1.headD "" ++ ": " ++ emsg)))
    | SpawnResult.exc emsg =>
        (Effects.mk out0 "" true,
         match to_quoted_string args1.tail with
         | Except.error e => Except.error e
         | Except.ok q =>
             Except.error (PyError.subprocessError
               ("Exception while executing \"" ++ args1.headD "" ++ "\"!\n" ++
                "\tArguments: " ++ q ++ "\n\t" ++ emsg)))
    | SpawnResult.ran lines errout code =>
        let d := drain stdout quiet lines
        run_result (Effects.mk (out0 ++ d.2) errout true) args1 code d.1
          stdout allow_fail

/-- `execute_process` (utilities.py lines 212-288).  In order: normalize
`args` to a list of strings; take `args[0]` (an empty list raises
`IndexError`); resolve it via `get_executable_path`, raising
`SubprocessError(args[0] + ": Command not found")` when the result is falsy
(`None` or the empty string); substitute the resolved path for `args[0]`;
when `verbose > 0` write `'$ '` and the quoted command line (a call that
raises `NameError` since `re` was never imported) to the parent's stdout;
then run the spawn/drain/return phase. -/
def execute_process (env : Env) (args : PyValue)
    (quiet stdout allow_fail : Bool) (verbose : Int) (simulate : Bool) :
    Effects × Except PyError RetVal :=
  match to_array_of_strings args with
  | Except.error e => (Effects.mk "" "" false, Except.error e)
  | Except.ok [] => (Effects.mk "" "" false, Except.error PyError.indexError)
  | Except.ok (a0 :: rest) =>
      match get_executable_path env a0 with
      | Option.none =>
          (Effects.mk "" "" false,
           Except.error (PyError.subprocessError (a0 ++ ": Command not found")))
      | Option.some path =>
          if path = "" then
            (Effects.mk "" "" false,
             Except.error (PyError.subprocessError (a0 ++ ": Command not found")))
          else
            let args1 := path :: rest
            if verbose > 0 then
              match to_quoted_string args1 with
              | Except.error e => (Effects.mk "$ " "" false, Except.error e)
              | Except.ok q =>
                  run_phase env args1
                    ("$ " ++ q ++ (if simulate then " (simulated)" else "") ++ "\n")
                    quiet stdout allow_fail simulate
            else
              run_phase env args1 "" quiet stdout allow_fail simulate

/-- An environment whose search path holds one executable, `hello`, and
whose child prints two lines, writes `warn` to stderr and exits 0. -/
def envDemo : Env :=
  Env.mk
    (fun n => if n = "hello" then Option.some "/usr/bin/hello" else Option.none)
    (fun _ => SpawnResult.ran ["one", "two"] "warn" 0)

/-- An environment whose search path holds one executable, `false`, and
whose child exits with code 2 producing no output. -/
def envExit2 : Env :=
  Env.mk
    (fun n => if n = "false" then Option.some "/bin/false" else Option.none)
    (fun _ => SpawnResult.ran [] "" 2)

/-- An environment where every name resolves and the `try` block fails with
a generic (non-`OSError`) exception. -/
def envBoom : Env :=
  Env.mk (fun _ => Option.some "/bin/tool") (fun _ => SpawnResult.exc "boom")


theorem empty_str_append (s : String) : "" ++ s = s := rfl

theorem to_quoted_string_eq (args : List String) :
    to_quoted_string args = Except.error (PyError.nameError "re") := by
  have h : module_imports.contains "re" = false := by decide
  unfold to_quoted_string
  rw [h]
  rfl

theorem drain_fst_true (q : Bool) (lines : List String) :
    (drain true q lines).1 = joinLines (lines.map (fun l => l ++ "\n")) := by
  induction lines with
  | nil => rfl
  | cons l ls ih => simp [drain, joinLines, ih]

theorem drain_fst_false (q : Bool) (lines : List String) :
    (drain false q lines).1 = "" := by
  induction lines with
  | nil => rfl
  | cons l ls ih => simp [drain, ih]

theorem drain_snd_quiet (st : Bool) (lines : List String) :
    (drain st true lines).2 = "" := by
  induction lines with
  | nil => rfl
  | cons l ls ih => simp [drain, ih]

theorem drain_snd_echo (st : Bool) (lines : List String) :
    (drain st false lines).2 = joinLines (lines.map (fun l => pyRstrip l ++ "\n")) := by
  induction lines with
  | nil => rfl
  | cons l ls ih => simp [drain, joinLines, ih]

theorem run_result_fst (eff : Effects) (args1 : List String) (status : Int)
    (output : String) (st af : Bool) :
    (run_result eff args1 status output st af).1 = eff := by
  unfold run_result
  rw [to_quoted_string_eq]
  split <;> rfl

theorem run_result_zero (eff : Effects) (args1 : List String)
    (output : String) (st af : Bool) :
    run_result eff args1 0 output st af
      = (eff, Except.ok (
          if st && af then RetVal.both 0 output
          else if st then RetVal.outputOnly output
          else RetVal.statusOnly 0)) := by
  simp [run_result]

theorem run_result_nonzero (eff : Effects) (args1 : List String) (status : Int)
    (output : String) (st : Bool) (h : status ≠ 0) :
    run_result eff args1 status output st false
      = (eff, Except.error (PyError.nameError "re")) := by
  simp [run_result, to_quoted_string_eq, h]

theorem run_result_allowed (eff : Effects) (args1 : List String) (status : Int)
    (output : String) (st : Bool) :
    run_result eff args1 status output st true
      = (eff, Except.ok (
          if st then RetVal.both status output else RetVal.statusOnly status)) := by
  cases st <;> simp [run_result]

theorem execute_process_resolved (env : Env) (a0 p : String) (rest : List PyAtom)
    (q st af sim : Bool) (h1 : env.resolve a0 = Option.some p) (h2 : p ≠ "") :
    execute_process env (PyValue.list (PyAtom.str a0 :: rest)) q st af 0 sim
      = run_phase env (p :: rest.map pyStrAtom) "" q st af sim := by
  simp [execute_process, to_array_of_strings, pyStrAtom, get_executable_path, h1, h2]

theorem run_phase_sim (env : Env) (args1 : List String) (out0 : String)
    (q st af : Bool) :
    run_phase env args1 out0 q st af true
      = run_result (Effects.mk out0 "" false) args1 0 "" st af := by
  simp [run_phase]

theorem run_phase_ran (env : Env) (args1 : List String) (out0 : String)
    (q st af : Bool) (lines : List String) (errout : String) (code : Int)
    (h : env.spawn args1 = SpawnResult.ran lines errout code) :
    run_phase env args1 out0 q st af false
      = run_result (Effects.mk (out0 ++ (drain st q lines).2) errout true)
          args1 code (drain st q lines).1 st af := by
  simp [run_phase, h]

theorem run_phase_exc (env : Env) (args1 : List String) (out0 : String)
    (q st af : Bool) (emsg : String) (h : env.spawn args1 = SpawnResult.exc emsg) :
    run_phase env args1 out0 q st af false
      = (Effects.mk out0 "" true, Except.error (PyError.nameError "re")) := by
  simp [run_phase, h, to_quoted_string_eq]

theorem resolve_failure (env : Env) (a0 : String) (rest : List PyAtom)
    (q st af sim : Bool) (v : Int) (h : env.resolve a0 = Option.none) :
    execute_process env (PyValue.list (PyAtom.str a0 :: rest)) q st af v sim
      = (Effects.mk "" "" false,
         Except.error (PyError.subprocessError (a0 ++ ": Command not found"))) := by
  simp [execute_process, to_array_of_strings, pyStrAtom, get_executable_path, h]

/-- C1: on a child process that exits with code 2 and allow_fail unset, the
code does not raise the documented SubprocessError carrying the quoted
command line: building that message calls to_quoted_string, which references
the never-imported `re` module, so a NameError escapes instead.  With
allow_fail set and stdout unset the exit code 2 is returned as the claim
states, and with neither stdout nor allow_fail a successful command returns
its (necessarily zero) exit code. -/
theorem execute_process_nonzero_exit_eval :
    (execute_process envExit2 (PyValue.list [PyAtom.str "false"])
        false false false 0 false).2
      = Except.error (PyError.nameError "re")
    ∧ execute_process envExit2 (PyValue.list [PyAtom.str "false"])
        false false true 0 false
      = (Effects.mk "" "" true, Except.ok (RetVal.statusOnly 2))
    ∧ execute_process envDemo (PyValue.list [PyAtom.str "hello"])
        false false false 0 false
      = (Effects.mk "one\ntwo\n" "warn" true, Except.ok (RetVal.statusOnly 0)) := by
  refine ⟨?_, ?_, ?_⟩ <;> decide

/-- C2: with simulate set and a resolvable executable name (other options at
their defaults, in particular verbosity 0), no child process is spawned, the
synthesized exit code 0 is what the call reports, and the returned output is
the empty string whenever stdout is requested; resolution still runs before
the simulate check, so an unresolvable name raises the command-not-found
SubprocessError even under simulate. -/
theorem execute_process_simulate (env : Env) (a0 p b0 : String)
    (rest : List PyAtom) (q st af : Bool)
    (h1 : env.resolve a0 = Option.some p) (h2 : p ≠ "")
    (h3 : env.resolve b0 = Option.none) :
    (execute_process env (PyValue.list (PyAtom.str a0 :: rest))
        q st af 0 true).1.spawned = false
    ∧ execute_process env (PyValue.list (PyAtom.str a0 :: rest)) q true af 0 true
      = (Effects.mk "" "" false,
         Except.ok (if af then RetVal.both 0 "" else RetVal.outputOnly ""))
    ∧ execute_process env (PyValue.list (PyAtom.str a0 :: rest)) q false af 0 true
      = (Effects.mk "" "" false, Except.ok (RetVal.statusOnly 0))
    ∧ execute_process env (PyValue.list (PyAtom.str b0 :: rest)) q st af 0 true
      = (Effects.mk "" "" false,
         Except.error (PyError.subprocessError (b0 ++ ": Command not found"))) := by
  refine ⟨?_, ?_, ?_, ?_⟩
  · rw [execute_process_resolved env a0 p rest q st af true h1 h2,
      run_phase_sim, run_result_fst]
  · rw [execute_process_resolved env a0 p rest q true af true h1 h2,
      run_phase_sim, run_result_zero]
    cases af <;> simp
  · rw [execute_process_resolved env a0 p rest q false af true h1 h2,
      run_phase_sim, run_result_zero]
    simp
  · exact resolve_failure env b0 rest q st af true 0 h3

theorem execute_process_simulate_witness :
    (execute_process envDemo (PyValue.list [PyAtom.str "hello"])
        false false false 0 true).1.spawned = false :=
  (execute_process_simulate envDemo "hello" "/usr/bin/hello" "nope" []
    false false false (by decide) (by decide) (by decide)).1

/-- C3: when the first argument does not resolve to an executable path, a
SubprocessError with the literal unresolved name in its message is raised at
once: the effects show nothing written to either stream and no process
spawned, for every combination of the other options. -/
theorem execute_process_not_found (env : Env) (a0 : String)
    (rest : List PyAtom) (q st af sim : Bool) (v : Int)
    (h : env.resolve a0 = Option.none) :
    execute_process env (PyValue.list (PyAtom.str a0 :: rest)) q st af v sim
      = (Effects.mk "" "" false,
         Except.error (PyError.subprocessError (a0 ++ ": Command not found"))) :=
  resolve_failure env a0 rest q st af sim v h

theorem execute_process_not_found_witness :
    execute_process envDemo (PyValue.list [PyAtom.str "nope"])
        false false false 0 false
      = (Effects.mk "" "" false,
         Except.error (PyError.subprocessError "nope: Command not found")) :=
  execute_process_not_found envDemo "nope" [] false false false false 0 (by decide)

/-- C4: the round-trip law fails on the code as written: to_quoted_string
raises NameError (the `re` module is never imported) on every input,
including an argument list free of quotes and whitespace, so the composition
never returns the list.  The computation the function's body describes
(to_quoted_string_body, what would run were `re` imported) does round-trip
through split_quoted_string at that input. -/
theorem quoting_round_trip_eval :
    to_quoted_string ["echo", "hello"] = Except.error (PyError.nameError "re")
    ∧ split_quoted_string (to_quoted_string_body ["echo", "hello"])
      = Except.ok ["echo", "hello"] := by
  exact ⟨by decide, by decide⟩

/-- C5: the quoting behaviour the claim describes is not what the code does:
every call of to_quoted_string raises NameError because `re` is never
imported.  The body's intended computation at a witness input shows the
described escaping and wrapping (an element with whitespace is wrapped, an
embedded double quote is backslash-escaped and does not trigger wrapping). -/
theorem to_quoted_string_nameError_eval :
    to_quoted_string ["a b", "c\"d"] = Except.error (PyError.nameError "re")
    ∧ to_quoted_string_body ["a b", "c\"d"] = "\"a b\" c\\\"d" := by
  exact ⟨by decide, by decide⟩

/-- C6: a child that prints its lines and exits 0, run with stdout and quiet
set (other options at their defaults), yields exactly those lines, each with
its trailing newline, as the returned output, with nothing echoed to the
parent's stdout; without quiet each line is echoed (as `print line.rstrip()`
does, the line less trailing whitespace plus a newline), which is the lines
themselves when they carry no trailing whitespace. -/
theorem execute_process_capture_lines (env : Env) (a0 p : String)
    (rest : List PyAtom) (lines : List String) (errs : String)
    (h1 : env.resolve a0 = Option.some p) (h2 : p ≠ "")
    (h3 : env.spawn (p :: rest.map pyStrAtom) = SpawnResult.ran lines errs 0) :
    execute_process env (PyValue.list (PyAtom.str a0 :: rest)) true true false 0 false
      = (Effects.mk "" errs true,
         Except.ok (RetVal.outputOnly (joinLines (lines.map (fun l => l ++ "\n")))))
    ∧ (execute_process env (PyValue.list (PyAtom.str a0 :: rest))
        false true false 0 false).1.out
      = joinLines (lines.map (fun l => pyRstrip l ++ "\n"))
    ∧ ((∀ l ∈ lines, pyRstrip l = l) →
        (execute_process env (PyValue.list (PyAtom.str a0 :: rest))
          false true false 0 false).1.out
        = joinLines (lines.map (fun l => l ++ "\n"))) := by
  refine ⟨?_, ?_, ?_⟩
  · rw [execute_process_resolved env a0 p rest true true false false h1 h2,
      run_phase_ran env (p :: rest.map pyStrAtom) "" true true false lines errs 0 h3,
      drain_snd_quiet, drain_fst_true, run_result_zero]
    simp
  · rw [execute_process_resolved env a0 p rest false true false false h1 h2,
      run_phase_ran env (p :: rest.map pyStrAtom) "" false true false lines errs 0 h3,
      run_result_fst, drain_snd_echo]
    exact empty_str_append _
  · intro hl
    have hmap : List.map (fun l => pyRstrip l ++ "\n") lines
        = List.map (fun l => l ++ "\n") lines :=
      List.map_congr_left (fun l hm => by rw [hl l hm])
    rw [execute_process_resolved env a0 p rest false true false false h1 h2,
      run_phase_ran env (p :: rest.map pyStrAtom) "" false true false lines errs 0 h3,
      run_result_fst, drain_snd_echo, hmap]
    exact empty_str_append _

theorem execute_process_capture_lines_witness :
    execute_process envDemo (PyValue.list [PyAtom.str "hello"]) true true false 0 false
      = (Effects.mk "" "warn" true, Except.ok (RetVal.outputOnly "one\ntwo\n")) :=
  (execute_process_capture_lines envDemo "hello" "/usr/bin/hello" [] ["one", "two"]
    "warn" (by decide) (by decide) (by decide)).1

/-- C7: to_array_of_strings maps a list input elementwise through `str()`
(preserving length and order), hands a string input to the shell-style
tokenizer split_quoted_string (whitespace separates tokens, quoted spans
stay one token, backslash escaping is honoured, as the sample inputs show),
and raises the `Exception("Argument must be either list or string")`
failure for an input of any other type. -/
theorem to_array_of_strings_spec :
    (∀ xs : List PyAtom,
      to_array_of_strings (PyValue.list xs) = Except.ok (xs.map pyStrAtom)
      ∧ (xs.map pyStrAtom).length = xs.length)
    ∧ (∀ s : String, to_array_of_strings (PyValue.str s) = split_quoted_string s)
    ∧ split_quoted_string "a b  c" = Except.ok ["a", "b", "c"]
    ∧ split_quoted_string "a \"b c\" d" = Except.ok ["a", "b c", "d"]
    ∧ split_quoted_string "x 'y z'" = Except.ok ["x", "y z"]
    ∧ split_quoted_string "ab\\\"cd" = Except.ok ["ab\"cd"]
    ∧ (∀ n : Int, to_array_of_strings (PyValue.int n)
        = Except.error (PyError.exception "Argument must be either list or string"))
    ∧ to_array_of_strings PyValue.none
      = Except.error (PyError.exception "Argument must be either list or string") := by
  refine ⟨fun xs => ⟨rfl, by simp⟩, fun s => rfl, by decide, by decide, by decide,
    by decide, fun n => rfl, rfl⟩

/-- C8: for every non-simulated run whose spawn succeeds, once the child's
stdout is drained the executor retrieves the exit code and the whole of the
child's stderr is written to the parent's stderr, whatever the quiet and
stdout settings; the retrieved exit code is what an allow_fail run returns
(paired with the captured output when stdout is set). -/
theorem execute_process_stderr_forward (env : Env) (a0 p : String)
    (rest : List PyAtom) (lines : List String) (errs : String) (code : Int)
    (q st af : Bool)
    (h1 : env.resolve a0 = Option.some p) (h2 : p ≠ "")
    (h3 : env.spawn (p :: rest.map pyStrAtom) = SpawnResult.ran lines errs code) :
    (execute_process env (PyValue.list (PyAtom.str a0 :: rest)) q st af 0 false).1.err
      = errs
    ∧ (execute_process env (PyValue.list (PyAtom.str a0 :: rest))
        q st af 0 false).1.spawned = true
    ∧ (execute_process env (PyValue.list (PyAtom.str a0 :: rest)) q true true 0 false).2
      = Except.ok (RetVal.both code (joinLines (lines.map (fun l => l ++ "\n"))))
    ∧ (execute_process env (PyValue.list (PyAtom.str a0 :: rest)) q false true 0 false).2
      = Except.ok (RetVal.statusOnly code) := by
  refine ⟨?_, ?_, ?_, ?_⟩
  · rw [execute_process_resolved env a0 p rest q st af false h1 h2,
      run_phase_ran env (p :: rest.map pyStrAtom) "" q st af lines errs code h3,
      run_result_fst]
  · rw [execute_process_resolved env a0 p rest q st af false h1 h2,
      run_phase_ran env (p :: rest.map pyStrAtom) "" q st af lines errs code h3,
      run_result_fst]
  · rw [execute_process_resolved env a0 p rest q true true false h1 h2,
      run_phase_ran env (p :: rest.map pyStrAtom) "" q true true lines errs code h3,
      run_result_allowed, drain_fst_true]
    rfl
  · rw [execute_process_resolved env a0 p rest q false true false h1 h2,
      run_phase_ran env (p :: rest.map pyStrAtom) "" q false true lines errs code h3,
      run_result_allowed]
    rfl

theorem execute_process_stderr_forward_witness :
    (execute_process envDemo (PyValue.list [PyAtom.str "hello"])
        false false false 0 false).1.err = "warn" :=
  (execute_process_stderr_forward envDemo "hello" "/usr/bin/hello" [] ["one", "two"]
    "warn" 0 false false false (by decide) (by decide) (by decide)).1

/-- C9: the module never imports `re`, so every call of to_quoted_string
raises NameError, and with it every execute_process path that formats a
command line: the `verbose > 0` echo (after `'$ '` is already written), the
non-zero-exit SubprocessError message, and the generic-exception handler's
message (which quotes `args[1:]`); the last conjunct exhibits the generic
path on a concrete environment. -/
theorem missing_re_import_nameError :
    module_imports.contains "re" = false
    ∧ (∀ args : List String,
        to_quoted_string args = Except.error (PyError.nameError "re"))
    ∧ (∀ (env : Env) (a0 p : String) (rest : List PyAtom) (q st af sim : Bool)
        (v : Int), env.resolve a0 = Option.some p → p ≠ "" → 0 < v →
        execute_process env (PyValue.list (PyAtom.str a0 :: rest)) q st af v sim
          = (Effects.mk "$ " "" false, Except.error (PyError.nameError "re")))
    ∧ (∀ (env : Env) (a0 p : String) (rest : List PyAtom) (lines : List String)
        (errs : String) (code : Int) (q st : Bool),
        env.resolve a0 = Option.some p → p ≠ "" →
        env.spawn (p :: rest.map pyStrAtom) = SpawnResult.ran lines errs code →
        code ≠ 0 →
        (execute_process env (PyValue.list (PyAtom.str a0 :: rest)) q st false 0 false).2
          = Except.error (PyError.nameError "re"))
    ∧ (∀ (env : Env) (a0 p : String) (rest : List PyAtom) (emsg : String)
        (q st af : Bool),
        env.resolve a0 = Option.some p → p ≠ "" →
        env.spawn (p :: rest.map pyStrAtom) = SpawnResult.exc emsg →
        (execute_process env (PyValue.list (PyAtom.str a0 :: rest)) q st af 0 false).2
          = Except.error (PyError.nameError "re"))
    ∧ (execute_process envBoom (PyValue.list [PyAtom.str "x"])
        false false false 0 false).2 = Except.error (PyError.nameError "re") := by
  refine ⟨by decide, to_quoted_string_eq, ?_, ?_, ?_, by decide⟩
  · intro env a0 p rest q st af sim v h1 h2 hv
    simp [execute_process, to_array_of_strings, pyStrAtom, get_executable_path,
      h1, h2, hv, to_quoted_string_eq]
  · intro env a0 p rest lines errs code q st h1 h2 h3 hc
    rw [execute_process_resolved env a0 p rest q st false false h1 h2,
      run_phase_ran env (p :: rest.map pyStrAtom) "" q st false lines errs code h3,
      run_result_nonzero _ _ code _ st hc]
  · intro env a0 p rest emsg q st af h1 h2 h3
    rw [execute_process_resolved env a0 p rest q st af false h1 h2,
      run_phase_exc env (p :: rest.map pyStrAtom) "" q st af emsg h3]

/-- C10: an empty argument list, and a quoted string that tokenizes to no
tokens (the empty and the all-whitespace string), make execute_process fail
with the unclassified IndexError from `args[0]`, not with one of the
classified SubprocessError kinds: nothing checks that the normalized list is
non-empty. -/
theorem execute_process_empty_args_indexError (env : Env) (q st af sim : Bool)
    (v : Int) :
    execute_process env (PyValue.list []) q st af v sim
      = (Effects.mk "" "" false, Except.error PyError.indexError)
    ∧ execute_process env (PyValue.str "") q st af v sim
      = (Effects.mk "" "" false, Except.error PyError.indexError)
    ∧ execute_process env (PyValue.str "  \t ") q st af v sim
      = (Effects.mk "" "" false, Except.error PyError.indexError)
    ∧ split_quoted_string "" = Except.ok []
    ∧ split_quoted_string "  \t " = Except.ok [] := by
  exact ⟨rfl, rfl, rfl, rfl, rfl⟩

end Basis
